import Mathlib

/-!
Shallow embedding of the `SoundEngine` class of `src/script.js` (the
procedural audio sequencer of the interactive-resume page), together with a
model of the browser timer runtime (`setTimeout` / `clearTimeout`) that the
self-rescheduling step loop relies on.

Every Web Audio API call the engine performs is recorded as an `Act` in the
order the JavaScript executes it, so that theorems can speak about exactly
which nodes are created, which envelope ramps are issued, and which timers
are scheduled or cancelled.  Times and gain levels are rationals (JavaScript
numbers are used only on exactly-representable decimal constants here);
`Date.now()` is a natural number of milliseconds.
-/

/-- Oscillator waveforms used by the engine (`osc.type = ...`). -/
inductive Wave
  | sine
  | triangle
  | square
  | sawtooth
deriving DecidableEq

/-- The two long-lived gain buses created in the constructor:
`masterGain` and `musicGain`. -/
inductive Bus
  | master
  | music
deriving DecidableEq

/-- Which AudioParam of the current one-shot voice an automation call targets:
the voice's gain envelope, the oscillator frequency, or the biquad filter
cutoff frequency. -/
inductive Param
  | gainParam
  | freqParam
  | filterFreqParam
deriving DecidableEq

/-- One observable action of the engine, in JavaScript execution order:
node creations, AudioParam automation calls, connections of a finished voice
chain into a bus, source start/stop scheduling, and timer bookkeeping. -/
inductive Act
  | createOsc (w : Wave)
  | createGain
  | createFilter
  | createBuffer
  | createBufferSource
  | freqValue (v : ℚ)
  | filterFreqValue (v : ℚ)
  | setValue (p : Param) (v t : ℚ)
  | linearRamp (p : Param) (v t : ℚ)
  | expRamp (p : Param) (v t : ℚ)
  | busSetValue (b : Bus) (v t : ℚ)
  | busLinearRamp (b : Bus) (v t : ℚ)
  | busSetTarget (b : Bus) (v t tc : ℚ)
  | connectTo (b : Bus)
  | start (t : ℚ)
  | stop (t : ℚ)
  | setTimeoutAct (h : ℕ) (ms : ℕ)
  | clearTimeoutAct (h : ℕ)
deriving DecidableEq

/-- The fields of the `SoundEngine` instance that the sequencer logic reads
and writes: `this.muted`, `this.isPlaying`, `this.timerIDs`
(script.js lines 18-20). -/
structure SE where
  muted : Bool
  isPlaying : Bool
  timerIDs : List ℕ
deriving DecidableEq

/-- The engine instance together with the browser timer runtime:
`pending` is the list of timer handles that are scheduled and neither fired
nor cancelled yet, and `nextH` is the next fresh handle `setTimeout` will
return. -/
structure Sys where
  eng : SE
  pending : List ℕ
  nextH : ℕ
deriving DecidableEq

/-- State of the engine right after `new SoundEngine()`
(script.js constructor, lines 5-21): not muted, not playing, no timers. -/
def initSE : SE := { muted := false, isPlaying := false, timerIDs := [] }

/-- Fresh engine plus an idle timer runtime. -/
def initSys : Sys := { eng := initSE, pending := [], nextH := 0 }

/-- Melodic scale `scaleHigh` (script.js line 98). -/
def scaleHigh : List ℚ := [523.25, 622.25, 698.46, 783.99, 932.33]

/-- Bass scale `scaleLow` (script.js line 99). -/
def scaleLow : List ℚ := [130.81, 155.56, 174.61, 196.00]

/-- `scale[Math.floor(r * scale.length)]` for a random draw `r`
(script.js lines 112 and 120). -/
def pick (scale : List ℚ) (r : ℚ) : ℚ :=
  scale.getD (Int.toNat ⌊r * scale.length⌋) 0

/-- `playPluck(freq, time, volume)` (script.js lines 44-61): muted guard,
then a sine oscillator with setValue 0, linear attack to `volume` at
`time + 0.01`, exponential decay to `0.001` at `time + 0.5`, routed into the
music bus, started at `time` and stopped at `time + 0.6`. -/
def playPluck (s : SE) (freq t volume : ℚ) : List Act :=
  if s.muted then [] else
  [ Act.createOsc Wave.sine, Act.createGain,
    Act.freqValue freq,
    Act.setValue Param.gainParam 0 t,
    Act.linearRamp Param.gainParam volume (t + 0.01),
    Act.expRamp Param.gainParam 0.001 (t + 0.5),
    Act.connectTo Bus.music,
    Act.start t, Act.stop (t + 0.6) ]

/-- `playBass(freq, time)` (script.js lines 64-86): muted guard, then a
triangle oscillator through a low-pass filter at 400 Hz, linear attack to
0.15 at `time + 0.05`, linear decay to 0 at `time + 0.4`, routed into the
music bus, started at `time` and stopped at `time + 0.5`. -/
def playBass (s : SE) (freq t : ℚ) : List Act :=
  if s.muted then [] else
  [ Act.createOsc Wave.triangle, Act.createGain, Act.createFilter,
    Act.freqValue freq,
    Act.filterFreqValue 400,
    Act.setValue Param.gainParam 0 t,
    Act.linearRamp Param.gainParam 0.15 (t + 0.05),
    Act.linearRamp Param.gainParam 0 (t + 0.4),
    Act.connectTo Bus.music,
    Act.start t, Act.stop (t + 0.5) ]

/-- External inputs consumed by one execution of the loop body
(script.js lines 105-126): `Date.now()` in milliseconds, `ctx.currentTime`,
the `Math.random()` draw compared against 0.3, and the `Math.random()` draws
used for the melodic and bass scale indices. -/
structure TickIn where
  dateNow : ℕ
  now : ℚ
  rMel : ℚ
  rHi : ℚ
  rLo : ℚ
deriving DecidableEq

/-- One execution of the loop body `loop` (script.js lines 105-126): return
early if `isPlaying` is false; otherwise with probability draw `rMel > 0.3`
trigger a pluck on a random high-scale note, trigger a bass note when
`Math.floor(Date.now() / 150) % 8 === 0`, and finally
`timerIDs.push(setTimeout(loop, 150))`. -/
def loopTick (sys : Sys) (i : TickIn) : Sys × List Act :=
  if sys.eng.isPlaying = false then (sys, [])
  else
    ({ eng := { sys.eng with timerIDs := sys.eng.timerIDs ++ [sys.nextH] },
       pending := sys.pending ++ [sys.nextH],
       nextH := sys.nextH + 1 },
     (if i.rMel > 0.3 then playPluck sys.eng (pick scaleHigh i.rHi) i.now 0.08 else [])
       ++ (if i.dateNow / 150 % 8 = 0 then playBass sys.eng (pick scaleLow i.rLo) i.now else [])
       ++ [Act.setTimeoutAct sys.nextH 150])

/-- `startMusic()` (script.js lines 88-129): return if already playing;
otherwise set `isPlaying`, fade the music bus from 0 to 0.25 over 2 seconds,
and call `loop()` synchronously (which runs the first tick immediately). -/
def startMusic (sys : Sys) (t : ℚ) (i : TickIn) : Sys × List Act :=
  if sys.eng.isPlaying then (sys, [])
  else
    ((loopTick { sys with eng := { sys.eng with isPlaying := true } } i).1,
     [Act.busSetValue Bus.music 0 t, Act.busLinearRamp Bus.music 0.25 (t + 2)]
       ++ (loopTick { sys with eng := { sys.eng with isPlaying := true } } i).2)

/-- `stopMusic()` (script.js lines 131-139): ramp the music bus toward 0 with
time constant 0.5, clear `isPlaying`, `clearTimeout` every recorded handle,
and reset `timerIDs` to the empty list. -/
def stopMusic (sys : Sys) (now : ℚ) : Sys × List Act :=
  ({ eng := { sys.eng with isPlaying := false, timerIDs := [] },
     pending := sys.pending.filter (fun h => !(decide (h ∈ sys.eng.timerIDs))),
     nextH := sys.nextH },
   Act.busSetTarget Bus.music 0 now 0.5 :: sys.eng.timerIDs.map Act.clearTimeoutAct)

/-- `toggleMute()` (script.js lines 23-37): flip `muted`, ramp the master bus
toward `muted ? 0 : 0.4` with time constant 0.1; on unmute call `startMusic`
when not playing and ramp the music bus toward 0.25 with time constant 1.0;
on mute ramp the music bus toward 0 with time constant 0.5.  Returns the new
`muted` flag. -/
def toggleMute (sys : Sys) (now t : ℚ) (i : TickIn) : Sys × List Act × Bool :=
  if sys.eng.muted then
    ((if sys.eng.isPlaying then ({ sys with eng := { sys.eng with muted := false } }, ([] : List Act))
      else startMusic { sys with eng := { sys.eng with muted := false } } t i).1,
     Act.busSetTarget Bus.master 0.4 now 0.1
       :: (if sys.eng.isPlaying then ({ sys with eng := { sys.eng with muted := false } }, ([] : List Act))
           else startMusic { sys with eng := { sys.eng with muted := false } } t i).2
       ++ [Act.busSetTarget Bus.music 0.25 now 1],
     false)
  else
    ({ sys with eng := { sys.eng with muted := true } },
     [Act.busSetTarget Bus.master 0 now 0.1, Act.busSetTarget Bus.music 0 now 0.5],
     true)

/-- `createNoiseBuffer()` followed by `ctx.createBufferSource()` is recorded
as the two creation acts of `playSnap`'s noise layer. `playSnap()`
(script.js lines 157-189): muted guard, then the filtered-noise whoosh into
the master bus, then the pitch-dropping triangle click into the master bus. -/
def playSnap (s : SE) (t : ℚ) : List Act :=
  if s.muted then [] else
  [ Act.createBufferSource, Act.createBuffer, Act.createFilter,
    Act.setValue Param.filterFreqParam 800 t,
    Act.createGain,
    Act.setValue Param.gainParam 0.5 t,
    Act.expRamp Param.gainParam 0.01 (t + 0.15),
    Act.connectTo Bus.master,
    Act.start t,
    Act.createOsc Wave.triangle, Act.createGain,
    Act.setValue Param.freqParam 150 t,
    Act.expRamp Param.freqParam 40 (t + 0.1),
    Act.setValue Param.gainParam 0.8 (t + 0.05),
    Act.expRamp Param.gainParam 0.01 (t + 0.15),
    Act.connectTo Bus.master,
    Act.start t, Act.stop (t + 0.2) ]

/-- One iteration of the `for` loop of `playScrambleNoise` (script.js lines
198-217) with index `i` and random draw `r`: alternating square/sawtooth
waveform, frequency `800 + r * 1000`, staccato envelope, scheduled at
`t + i * 0.04`. -/
def scrambleBlip (t : ℚ) (i : ℕ) (r : ℚ) : List Act :=
  [ Act.createOsc (if i % 2 = 0 then Wave.square else Wave.sawtooth),
    Act.createGain,
    Act.setValue Param.freqParam (800 + r * 1000) (t + i * 0.04),
    Act.setValue Param.gainParam 0.05 (t + i * 0.04),
    Act.expRamp Param.gainParam 0.001 (t + i * 0.04 + 0.03),
    Act.connectTo Bus.master,
    Act.start (t + i * 0.04), Act.stop (t + i * 0.04 + 0.05) ]

/-- `playScrambleNoise()` (script.js lines 192-218): muted guard, then 8
rapid blips; `r i` supplies the `Math.random()` frequency draw of blip `i`. -/
def playScrambleNoise (s : SE) (t : ℚ) (r : ℕ → ℚ) : List Act :=
  if s.muted then [] else ((List.range 8).map (fun i => scrambleBlip t i (r i))).flatten

/-- `playServo()` (script.js lines 222-249): muted guard, then a sawtooth
sweep 100→800 Hz through a rising low-pass filter 400→2000 Hz, amplitude
rising to 0.2 at `t + 0.1` and back to 0 at `t + 0.6`, into the master bus. -/
def playServo (s : SE) (t : ℚ) : List Act :=
  if s.muted then [] else
  [ Act.createOsc Wave.sawtooth, Act.createGain,
    Act.setValue Param.freqParam 100 t,
    Act.expRamp Param.freqParam 800 (t + 0.6),
    Act.createFilter,
    Act.setValue Param.filterFreqParam 400 t,
    Act.linearRamp Param.filterFreqParam 2000 (t + 0.6),
    Act.setValue Param.gainParam 0 t,
    Act.linearRamp Param.gainParam 0.2 (t + 0.1),
    Act.linearRamp Param.gainParam 0 (t + 0.6),
    Act.connectTo Bus.master,
    Act.start t, Act.stop (t + 0.6) ]

/-- `playHover()` (script.js lines 252-268): muted guard, then a sine tap at
1200 Hz, amplitude 0.05 with 50 ms exponential decay, into the master bus. -/
def playHover (s : SE) (t : ℚ) : List Act :=
  if s.muted then [] else
  [ Act.createOsc Wave.sine, Act.createGain,
    Act.setValue Param.freqParam 1200 t,
    Act.setValue Param.gainParam 0.05 t,
    Act.expRamp Param.gainParam 0.001 (t + 0.05),
    Act.connectTo Bus.master,
    Act.start t, Act.stop (t + 0.05) ]

/-- The chord frequencies of `playSuccess` (script.js line 276). -/
def successNotes : List ℚ := [440, 554, 659, 830]

/-- One voice of the chord in `playSuccess` (script.js lines 278-294):
triangle wave at `freq`, attack to 0.15 at `t + 0.1 + i * 0.05`, shared
exponential release to 0.001 at `t + 2`, into the master bus. -/
def successVoice (freq : ℚ) (i : ℕ) (t : ℚ) : List Act :=
  [ Act.createOsc Wave.triangle, Act.createGain,
    Act.freqValue freq,
    Act.setValue Param.gainParam 0 t,
    Act.linearRamp Param.gainParam 0.15 (t + 0.1 + i * 0.05),
    Act.expRamp Param.gainParam 0.001 (t + 2),
    Act.connectTo Bus.master,
    Act.start t, Act.stop (t + 2) ]

/-- `playSuccess()` (script.js lines 271-295): muted guard, then the four
staggered chord voices. -/
def playSuccess (s : SE) (t : ℚ) : List Act :=
  if s.muted then [] else
    (successNotes.enum.map (fun p => successVoice p.2 p.1 t)).flatten

/-!
Browser timer runtime.  A scheduled tick callback can fire (the browser
event loop invokes it and removes its handle from the live set); firing a
handle that was cancelled or never scheduled does nothing.  This is the
single-threaded event-loop semantics the engine relies on.
-/

/-- One runtime event: the browser fires the timer with handle `h`,
supplying that tick's clock readings and random draws. -/
inductive Ev
  | fire (h : ℕ) (i : TickIn)

/-- The browser fires handle `h`: if `h` is live it is consumed and the
loop body runs; otherwise nothing happens. -/
def fireTimer (sys : Sys) (h : ℕ) (i : TickIn) : Sys × List Act :=
  if h ∈ sys.pending then
    loopTick { sys with pending := sys.pending.erase h } i
  else (sys, [])

/-- Run a sequence of timer firings, concatenating the produced acts. -/
def run (sys : Sys) : List Ev → Sys × List Act
  | [] => (sys, [])
  | Ev.fire h i :: evs =>
    ((run (fireTimer sys h i).1 evs).1,
     (fireTimer sys h i).2 ++ (run (fireTimer sys h i).1 evs).2)

/-- Engine-plus-runtime states reachable from a fresh engine through the
public control surface and timer firings. -/
inductive Reachable : Sys → Prop
  | init : Reachable initSys
  | startStep (s : Sys) (t : ℚ) (i : TickIn) :
      Reachable s → Reachable (startMusic s t i).1
  | stopStep (s : Sys) (now : ℚ) :
      Reachable s → Reachable (stopMusic s now).1
  | toggleStep (s : Sys) (now t : ℚ) (i : TickIn) :
      Reachable s → Reachable (toggleMute s now t i).1
  | fireStep (s : Sys) (h : ℕ) (i : TickIn) :
      Reachable s → Reachable (fireTimer s h i).1

/-- The handles `a, a + 1, …, a + k - 1`, in the order the loop allocates
them. -/
def handleSeq (a k : ℕ) : List ℕ :=
  match k with
  | 0 => []
  | k + 1 => a :: handleSeq (a + 1) k

/-- Fire, at each step, the timer handle most recently allocated by the
loop: this is exactly the browser executing the sequencer's self-scheduled
ticks in order, with the given per-tick inputs. -/
def driveTicks (sys : Sys) : List TickIn → Sys
  | [] => sys
  | i :: is => driveTicks (fireTimer sys (sys.nextH - 1) i).1 is

/-!
The output bus graph built by the constructor (script.js lines 8-16):
`masterGain.connect(ctx.destination)` and `musicGain.connect(ctx.destination)`.
Both buses are connected directly to the hardware destination; each is one
hop away, so the gain a signal injected at a bus picks up on its way to the
destination is computed over these one-hop edges.
-/

/-- Nodes of the long-lived output graph. -/
inductive GraphNode
  | destination
  | master
  | music
deriving DecidableEq

/-- Edges created by the constructor: `(a, b)` means `a.connect(b)`
(script.js lines 10 and 15). -/
def busConnections : List (GraphNode × GraphNode) :=
  [(GraphNode.master, GraphNode.destination), (GraphNode.music, GraphNode.destination)]

/-- Whether the constructor connected `a` into `b`. -/
def connectedTo (a b : GraphNode) : Bool := busConnections.contains (a, b)

/-- The gain value currently set on a node (`gain.value`); the destination
passes signal through unscaled. -/
def nodeGain (masterLevel musicLevel : ℚ) : GraphNode → ℚ
  | GraphNode.destination => 1
  | GraphNode.master => masterLevel
  | GraphNode.music => musicLevel

/-- Gain picked up by a signal injected at `n` on its way to the hardware
destination: the node's own gain times the sum over the constructor's
out-edges of `n` of the downstream (one-hop, since every edge of
`busConnections` ends at the destination) contribution. -/
def routeGainToDestination (masterLevel musicLevel : ℚ) (n : GraphNode) : ℚ :=
  nodeGain masterLevel musicLevel n *
    ((busConnections.filter (fun e => decide (e.1 = n))).map
      (fun e => if e.2 = GraphNode.destination then (1 : ℚ) else 0)).sum

/-!
Continuous-time semantics of `gain.setTargetAtTime(target, t0, tc)`, the
Web Audio exponential-approach automation the engine uses for every bus
ramp toward a steady state: starting from value `v0` at time `t0`, the
parameter follows `target + (v0 - target) * exp (-(t - t0) / tc)`.
-/

/-- Value at time `t` of a gain parameter that held `v0` when
`setTargetAtTime(target, t0, tc)` was issued. -/
noncomputable def setTargetCurve (v0 target t0 tc t : ℝ) : ℝ :=
  target + (v0 - target) * Real.exp (-((t - t0) / tc))

/-!
Counting helpers over act traces.
-/

/-- Whether an act is the creation of an oscillator, i.e. the synthesis of a
note (every note of the engine creates exactly one oscillator; the snap's
noise layer creates a buffer source instead and is not an oscillator). -/
def isNoteOsc : Act → Bool
  | Act.createOsc _ => true
  | _ => false

/-- Number of oscillator voices synthesized in a trace. -/
def noteCount (acts : List Act) : ℕ := acts.countP isNoteOsc

/-- Whether an act creates a triangle oscillator (the waveform of the
sequencer's bass voice). -/
def isTriOsc : Act → Bool
  | Act.createOsc Wave.triangle => true
  | _ => false

/-- Whether an act creates a sine oscillator (the waveform of the
sequencer's pluck voice). -/
def isSineOsc : Act → Bool
  | Act.createOsc Wave.sine => true
  | _ => false

/-- Number of bass voices (triangle oscillators) synthesized in a trace. -/
def bassCount (acts : List Act) : ℕ := acts.countP isTriOsc

/-- Number of pluck voices (sine oscillators) synthesized in a trace. -/
def pluckCount (acts : List Act) : ℕ := acts.countP isSineOsc

/-!
Invariants of the reachable states: every live timer handle is recorded in
`timerIDs` (the loop records each `setTimeout` result before anything else
can run), and an idle engine holds no timers at all.
-/

/-- Timer-bookkeeping invariant maintained by the engine. -/
def SysInv (s : Sys) : Prop :=
  (∀ h ∈ s.pending, h ∈ s.eng.timerIDs) ∧
  (s.eng.isPlaying = false → s.eng.timerIDs = [] ∧ s.pending = [])

theorem sysInv_init : SysInv initSys := by
  constructor
  · intro h hmem
    simp [initSys, initSE] at hmem
  · intro
    simp [initSys, initSE]

theorem sysInv_loopTick (s : Sys) (i : TickIn) (hs : SysInv s) :
    SysInv (loopTick s i).1 := by
  by_cases hp : s.eng.isPlaying = false
  · simpa [loopTick, hp] using hs
  · obtain ⟨h1, h2⟩ := hs
    rw [loopTick, if_neg hp]
    constructor
    · intro h hmem
      simp only [List.mem_append, List.mem_singleton] at hmem ⊢
      rcases hmem with hm | hm
      · exact Or.inl (h1 h hm)
      · exact Or.inr hm
    · intro hfalse
      exact absurd hfalse hp

theorem sysInv_startMusic (s : Sys) (t : ℚ) (i : TickIn) (hs : SysInv s) :
    SysInv (startMusic s t i).1 := by
  by_cases hp : s.eng.isPlaying
  · simpa [startMusic, hp] using hs
  · rw [startMusic, if_neg hp]
    apply sysInv_loopTick
    obtain ⟨h1, h2⟩ := hs
    exact ⟨h1, fun hfalse => h2 (by simpa using hp)⟩

theorem sysInv_stopMusic (s : Sys) (now : ℚ) (hs : SysInv s) :
    SysInv (stopMusic s now).1 := by
  obtain ⟨h1, _⟩ := hs
  constructor
  · intro h hmem
    rw [stopMusic] at hmem
    simp only [List.mem_filter, Bool.not_eq_true', decide_eq_false_iff_not] at hmem
    exact absurd (h1 h hmem.1) hmem.2
  · intro
    constructor
    · rfl
    · rw [stopMusic]
      simp only [List.filter_eq_nil_iff, Bool.not_eq_true', decide_eq_false_iff_not]
      intro h hmem
      exact fun hno => hno (h1 h hmem)

theorem sysInv_toggleMute (s : Sys) (now t : ℚ) (i : TickIn) (hs : SysInv s) :
    SysInv (toggleMute s now t i).1 := by
  obtain ⟨h1, h2⟩ := hs
  by_cases hm : s.eng.muted
  · rw [toggleMute, if_pos hm]
    by_cases hp : s.eng.isPlaying
    · rw [if_pos hp]
      exact ⟨h1, h2⟩
    · rw [if_neg hp]
      exact sysInv_startMusic _ t i ⟨h1, h2⟩
  · rw [toggleMute, if_neg hm]
    exact ⟨h1, fun hfalse => h2 hfalse⟩

theorem sysInv_fireTimer (s : Sys) (h : ℕ) (i : TickIn) (hs : SysInv s) :
    SysInv (fireTimer s h i).1 := by
  obtain ⟨h1, h2⟩ := hs
  by_cases hmem : h ∈ s.pending
  · rw [fireTimer, if_pos hmem]
    apply sysInv_loopTick
    constructor
    · intro x hx
      exact h1 x (List.mem_of_mem_erase hx)
    · intro hfalse
      obtain ⟨hT, hP⟩ := h2 hfalse
      exact ⟨hT, by simp [hP]⟩
  · rw [fireTimer, if_neg hmem]
    exact ⟨h1, h2⟩

theorem reachable_sysInv (s : Sys) (hre : Reachable s) : SysInv s := by
  induction hre with
  | init => exact sysInv_init
  | startStep s t i _ ih => exact sysInv_startMusic s t i ih
  | stopStep s now _ ih => exact sysInv_stopMusic s now ih
  | toggleStep s now t i _ ih => exact sysInv_toggleMute s now t i ih
  | fireStep s h i _ ih => exact sysInv_fireTimer s h i ih

/-- With no live timers, firing events does nothing: no state change and no
acts. -/
theorem run_pending_nil (evs : List Ev) (s : Sys) (hp : s.pending = []) :
    run s evs = (s, []) := by
  induction evs with
  | nil => rfl
  | cons e evs ih =>
    obtain ⟨h, i⟩ := e
    have hfire : fireTimer s h i = (s, []) := by
      rw [fireTimer, if_neg (by simp [hp])]
    rw [run, hfire]
    simp [ih]

/-- After `stopMusic`, every live timer has been cancelled. -/
theorem stopMusic_pending_nil (s : Sys) (now : ℚ) (hs : SysInv s) :
    (stopMusic s now).1.pending = [] := by
  rw [stopMusic]
  simp only [List.filter_eq_nil_iff, Bool.not_eq_true', decide_eq_false_iff_not]
  intro h hmem
  exact fun hno => hno (hs.1 h hmem)

theorem handleSeq_length (k a : ℕ) : (handleSeq a k).length = k := by
  induction k generalizing a with
  | zero => rfl
  | succ k ih => simp [handleSeq, ih]

/-- While the loop is running with exactly its own most recent timer live,
executing the browser's ticks appends the freshly allocated handles to
`timerIDs`, one per tick, never removing any. -/
theorem driveTicks_chars (is : List TickIn) : ∀ sys : Sys,
    sys.eng.isPlaying = true → sys.pending = [sys.nextH - 1] →
    (driveTicks sys is).eng.timerIDs = sys.eng.timerIDs ++ handleSeq sys.nextH is.length ∧
    (driveTicks sys is).eng.isPlaying = true := by
  induction is with
  | nil =>
    intro sys hp _
    exact ⟨by simp [driveTicks, handleSeq], by simpa [driveTicks] using hp⟩
  | cons i is ih =>
    intro sys hp hpend
    have hmem : sys.nextH - 1 ∈ sys.pending := by
      rw [hpend]; exact List.mem_singleton_self _
    have herase : sys.pending.erase (sys.nextH - 1) = [] := by
      rw [hpend]; simp
    rw [driveTicks, fireTimer, if_pos hmem, loopTick, if_neg (by simp [hp])]
    have hstep := ih
      { eng := { sys.eng with timerIDs := sys.eng.timerIDs ++ [sys.nextH] },
        pending := sys.pending.erase (sys.nextH - 1) ++ [sys.nextH],
        nextH := sys.nextH + 1 }
      (by simpa using hp)
      (by simp [herase])
    refine ⟨?_, hstep.2⟩
    rw [hstep.1]
    simp [handleSeq, List.append_assoc]

/-- C1: for every reachable engine state, once `stopMusic` returns, no
scheduled tick callback ever executes again and no further note (pluck or
bass) is triggered, no matter how many timer events the browser processes
afterwards: the post-stop run produces no acts at all and leaves the state
unchanged. -/
theorem stopMusic_silences_forever (s : Sys) (now : ℚ) (evs : List Ev)
    (hre : Reachable s) :
    (run (stopMusic s now).1 evs).2 = [] ∧
    (run (stopMusic s now).1 evs).1 = (stopMusic s now).1 := by
  have hp := stopMusic_pending_nil s now (reachable_sysInv s hre)
  have hr := run_pending_nil evs (stopMusic s now).1 hp
  rw [hr]
  exact ⟨rfl, rfl⟩

theorem stopMusic_silences_forever_witness :
    (run (stopMusic initSys 0).1 [Ev.fire 0 ⟨0, 0, 1, 0, 0⟩, Ev.fire 1 ⟨300, 1, 1, 0, 0⟩]).2 = [] ∧
    (run (stopMusic initSys 0).1 [Ev.fire 0 ⟨0, 0, 1, 0, 0⟩, Ev.fire 1 ⟨300, 1, 1, 0, 0⟩]).1
      = (stopMusic initSys 0).1 :=
  stopMusic_silences_forever initSys 0 [Ev.fire 0 ⟨0, 0, 1, 0, 0⟩, Ev.fire 1 ⟨300, 1, 1, 0, 0⟩]
    Reachable.init

/-- C4: calling `startMusic` while the sequencer is already playing is a
complete no-op: the state is returned unchanged and no act (no gain ramp, no
note, no timer) is performed. -/
theorem startMusic_idempotent (s : Sys) (t : ℚ) (i : TickIn)
    (hp : s.eng.isPlaying = true) :
    startMusic s t i = (s, []) := by
  rw [startMusic, if_pos hp]

theorem startMusic_idempotent_witness :
    startMusic
      { eng := { muted := false, isPlaying := true, timerIDs := [0] }, pending := [0], nextH := 1 }
      0 ⟨0, 0, 1, 0, 0⟩
    = ({ eng := { muted := false, isPlaying := true, timerIDs := [0] }, pending := [0], nextH := 1 },
       []) :=
  startMusic_idempotent
    { eng := { muted := false, isPlaying := true, timerIDs := [0] }, pending := [0], nextH := 1 }
    0 ⟨0, 0, 1, 0, 0⟩ rfl

/-- C5: while muted, every one-shot trigger performs no synthesis at all:
no oscillator, buffer, gain or filter is created and no note is scheduled —
the act trace of each `play*` function is empty. -/
theorem muted_suppresses_oneshots (s : SE) (t : ℚ) (r : ℕ → ℚ)
    (hm : s.muted = true) :
    playSnap s t = [] ∧ playScrambleNoise s t r = [] ∧ playServo s t = [] ∧
    playHover s t = [] ∧ playSuccess s t = [] := by
  rw [playSnap, playScrambleNoise, playServo, playHover, playSuccess]
  simp [hm]

theorem muted_suppresses_oneshots_witness :
    playSnap { muted := true, isPlaying := false, timerIDs := [] } 0 = [] ∧
    playScrambleNoise { muted := true, isPlaying := false, timerIDs := [] } 0 (fun _ => 0) = [] ∧
    playServo { muted := true, isPlaying := false, timerIDs := [] } 0 = [] ∧
    playHover { muted := true, isPlaying := false, timerIDs := [] } 0 = [] ∧
    playSuccess { muted := true, isPlaying := false, timerIDs := [] } 0 = [] :=
  muted_suppresses_oneshots { muted := true, isPlaying := false, timerIDs := [] } 0 (fun _ => 0) rfl

/-- C8: an unmuted pluck is a sine oscillator whose envelope is set to 0 at
its start time, linearly ramps to the target amplitude 10 ms later, decays
exponentially to the near-silence level 0.001 by start + 0.5 s, and whose
oscillator starts at the start time and auto-stops at start + 0.6 s. -/
theorem playPluck_contract (s : SE) (freq t vol : ℚ) (hm : s.muted = false) :
    Act.createOsc Wave.sine ∈ playPluck s freq t vol ∧
    Act.setValue Param.gainParam 0 t ∈ playPluck s freq t vol ∧
    Act.linearRamp Param.gainParam vol (t + 0.01) ∈ playPluck s freq t vol ∧
    Act.expRamp Param.gainParam 0.001 (t + 0.5) ∈ playPluck s freq t vol ∧
    Act.start t ∈ playPluck s freq t vol ∧
    Act.stop (t + 0.6) ∈ playPluck s freq t vol := by
  rw [playPluck]
  simp [hm]

theorem playPluck_contract_witness :
    Act.createOsc Wave.sine ∈ playPluck initSE 440 0 0.08 ∧
    Act.setValue Param.gainParam 0 0 ∈ playPluck initSE 440 0 0.08 ∧
    Act.linearRamp Param.gainParam 0.08 (0 + 0.01) ∈ playPluck initSE 440 0 0.08 ∧
    Act.expRamp Param.gainParam 0.001 (0 + 0.5) ∈ playPluck initSE 440 0 0.08 ∧
    Act.start 0 ∈ playPluck initSE 440 0 0.08 ∧
    Act.stop (0 + 0.6) ∈ playPluck initSE 440 0 0.08 :=
  playPluck_contract initSE 440 0 0.08 rfl

/-- C2 counterexample: the music bus is not a child of the master bus — the
constructor connects `musicGain` straight to the destination — and with the
master gain at 0 a signal on the music bus still reaches the destination at
the full music-bus gain 0.25, so muting master does not silence the
sequencer. -/
theorem music_not_child_of_master :
    connectedTo GraphNode.music GraphNode.master = false ∧
    routeGainToDestination 0 0.25 GraphNode.music = 0.25 ∧
    routeGainToDestination 0 0.25 GraphNode.music ≠ 0 := by
  refine ⟨rfl, ?_, ?_⟩
  · simp +decide [routeGainToDestination, nodeGain, busConnections]
  · simp +decide [routeGainToDestination, nodeGain, busConnections]
    norm_num

/-- C2 amended: both buses are connected directly (in parallel) to the
destination, the music bus is not routed through master, and setting the
master gain to 0 therefore silences exactly the signals injected at the
master bus (the one-shot effects) while a signal on the music bus reaches
the destination scaled by the music gain alone. -/
theorem music_parallel_to_master :
    connectedTo GraphNode.music GraphNode.destination = true ∧
    connectedTo GraphNode.master GraphNode.destination = true ∧
    connectedTo GraphNode.music GraphNode.master = false ∧
    (∀ musicLevel : ℚ, routeGainToDestination 0 musicLevel GraphNode.music = musicLevel) ∧
    (∀ masterLevel musicLevel : ℚ,
      routeGainToDestination masterLevel musicLevel GraphNode.master = masterLevel) := by
  refine ⟨rfl, rfl, rfl, ?_, ?_⟩ <;>
    intros <;> simp +decide [routeGainToDestination, nodeGain, busConnections]

/-- C3 counterexample: on a fresh engine, `startMusic` runs the first loop
tick synchronously before returning, so with a melody draw above 0.3
(here 1/2) the scenario start-then-immediate-stop has already synthesized
one note — not zero — before any 150 ms interval could elapse. -/
theorem start_then_stop_triggers_note :
    noteCount ((startMusic initSys 0 ⟨150, 0, 1/2, 0, 0⟩).2
      ++ (stopMusic (startMusic initSys 0 ⟨150, 0, 1/2, 0, 0⟩).1 0).2) = 1 := by
  norm_num [startMusic, loopTick, stopMusic, initSys, initSE, playPluck, playBass,
    noteCount, isNoteOsc, List.countP_append, List.countP_cons, List.countP_map]

/-- C3 amended: `start()` executes its first tick synchronously, which may
trigger up to one pluck and up to one bass note (at most two notes, not
necessarily zero); an immediate `stop()` before the 150 ms interval elapses
synthesizes nothing further, first ramps the music bus toward 0 (time
constant 0.5 s), and afterwards no timer event ever produces another act. -/
theorem start_immediate_stop (t now : ℚ) (i : TickIn) (evs : List Ev) :
    pluckCount (startMusic initSys t i).2 ≤ 1 ∧
    bassCount (startMusic initSys t i).2 ≤ 1 ∧
    noteCount (stopMusic (startMusic initSys t i).1 now).2 = 0 ∧
    (stopMusic (startMusic initSys t i).1 now).2.head? =
      some (Act.busSetTarget Bus.music 0 now 0.5) ∧
    (run (stopMusic (startMusic initSys t i).1 now).1 evs).2 = [] := by
  refine ⟨?_, ?_, ?_, ?_, ?_⟩
  · rw [startMusic, if_neg (by simp [initSys, initSE]), loopTick,
      if_neg (by simp [initSys, initSE])]
    by_cases hmel : i.rMel > 0.3 <;> by_cases hb : i.dateNow / 150 % 8 = 0 <;>
      simp [hmel, hb, pluckCount, isSineOsc, playPluck, playBass, initSys, initSE,
        List.countP_append, List.countP_cons]
  · rw [startMusic, if_neg (by simp [initSys, initSE]), loopTick,
      if_neg (by simp [initSys, initSE])]
    by_cases hmel : i.rMel > 0.3 <;> by_cases hb : i.dateNow / 150 % 8 = 0 <;>
      simp [hmel, hb, bassCount, isTriOsc, playPluck, playBass, initSys, initSE,
        List.countP_append, List.countP_cons]
  · rw [stopMusic]
    simp [noteCount, isNoteOsc, List.countP_cons, List.countP_map, Function.comp]
  · rw [stopMusic]
    rfl
  · have hre : Reachable (startMusic initSys t i).1 :=
      Reachable.startStep initSys t i Reachable.init
    have hp := stopMusic_pending_nil (startMusic initSys t i).1 now
      (reachable_sysInv (startMusic initSys t i).1 hre)
    rw [run_pending_nil evs (stopMusic (startMusic initSys t i).1 now).1 hp]

/-- C6: on every executed loop tick of the running, unmuted sequencer,
exactly one bass pulse is triggered when `Date.now()` integer-divided by the
150 ms tick interval is a multiple of 8, and none otherwise; the melodic
pluck is triggered exactly when the probability draw exceeds 0.3. -/
theorem bass_every_eighth_tick (s : Sys) (i : TickIn)
    (hp : s.eng.isPlaying = true) (hm : s.eng.muted = false) :
    bassCount (loopTick s i).2 = (if i.dateNow / 150 % 8 = 0 then 1 else 0) ∧
    pluckCount (loopTick s i).2 = (if i.rMel > 0.3 then 1 else 0) := by
  rw [loopTick, if_neg (by simp [hp])]
  constructor <;>
  · by_cases hb : i.dateNow / 150 % 8 = 0 <;> by_cases hmel : i.rMel > 0.3 <;>
      simp [hb, hmel, bassCount, pluckCount, isTriOsc, isSineOsc, playBass, playPluck,
        hm, List.countP_append, List.countP_cons]

theorem bass_every_eighth_tick_witness :
    bassCount (loopTick
      { eng := { muted := false, isPlaying := true, timerIDs := [0] }, pending := [0], nextH := 1 }
      ⟨1200, 1, 1, 0, 0⟩).2 = (if 1200 / 150 % 8 = 0 then 1 else 0) ∧
    pluckCount (loopTick
      { eng := { muted := false, isPlaying := true, timerIDs := [0] }, pending := [0], nextH := 1 }
      ⟨1200, 1, 1, 0, 0⟩).2 = (if (1 : ℚ) > 0.3 then 1 else 0) :=
  bass_every_eighth_tick
    { eng := { muted := false, isPlaying := true, timerIDs := [0] }, pending := [0], nextH := 1 }
    ⟨1200, 1, 1, 0, 0⟩ rfl rfl

/-- C7: `toggleMute` flips the mute flag and returns the new state; when the
new state is muted it ramps the master bus toward 0 with time constant 0.1;
when the new state is unmuted it ramps the music bus toward 0.25 with time
constant 1.0, leaves the engine playing, and allocates a new loop timer
(i.e. starts the step loop) exactly when no loop was already running. -/
theorem toggleMute_contract (s : Sys) (now t : ℚ) (i : TickIn) :
    (toggleMute s now t i).2.2 = !s.eng.muted ∧
    (toggleMute s now t i).1.eng.muted = !s.eng.muted ∧
    (s.eng.muted = false →
      Act.busSetTarget Bus.master 0 now 0.1 ∈ (toggleMute s now t i).2.1) ∧
    (s.eng.muted = true →
      Act.busSetTarget Bus.music 0.25 now 1 ∈ (toggleMute s now t i).2.1 ∧
      (toggleMute s now t i).1.eng.isPlaying = true ∧
      ((toggleMute s now t i).1.nextH = s.nextH + 1 ↔ s.eng.isPlaying = false)) := by
  by_cases hm : s.eng.muted
  · rw [toggleMute, if_pos hm]
    by_cases hp : s.eng.isPlaying
    · rw [if_pos hp]
      refine ⟨by simp [hm], by simp [hm], by simp [hm], fun _ => ⟨by simp, hp, ?_⟩⟩
      simp [hp]
    · rw [if_neg hp, startMusic, if_neg hp, loopTick, if_neg (by simp)]
      refine ⟨by simp [hm], by simp [hm], by simp [hm], fun _ => ⟨by simp, rfl, ?_⟩⟩
      simp [Bool.not_eq_true] at hp
      simp [hp]
  · rw [toggleMute, if_neg hm]
    simp [Bool.not_eq_true] at hm
    exact ⟨by simp [hm], by simp [hm], fun _ => by simp, fun habs => by simp [hm] at habs⟩

theorem toggleMute_contract_witness :
    (toggleMute initSys 0 0 ⟨0, 0, 1, 0, 0⟩).2.2 = !initSys.eng.muted ∧
    (toggleMute initSys 0 0 ⟨0, 0, 1, 0, 0⟩).1.eng.muted = !initSys.eng.muted ∧
    (initSys.eng.muted = false →
      Act.busSetTarget Bus.master 0 0 0.1 ∈ (toggleMute initSys 0 0 ⟨0, 0, 1, 0, 0⟩).2.1) ∧
    (initSys.eng.muted = true →
      Act.busSetTarget Bus.music 0.25 0 1 ∈ (toggleMute initSys 0 0 ⟨0, 0, 1, 0, 0⟩).2.1 ∧
      (toggleMute initSys 0 0 ⟨0, 0, 1, 0, 0⟩).1.eng.isPlaying = true ∧
      ((toggleMute initSys 0 0 ⟨0, 0, 1, 0, 0⟩).1.nextH = initSys.nextH + 1 ↔
        initSys.eng.isPlaying = false)) :=
  toggleMute_contract initSys 0 0 ⟨0, 0, 1, 0, 0⟩

/-- C10: starting the sequencer from any reachable idle state and letting the
browser execute `n` further ticks leaves `timerIDs` holding exactly the
`n + 1` handles allocated since `startMusic` (one appended per executed
tick, none removed when its timer fires — including the handles of
already-fired timers), and only `stopMusic` empties the list. -/
theorem timerIDs_growth (s : Sys) (t now : ℚ) (i0 : TickIn) (is : List TickIn)
    (hre : Reachable s) (hidle : s.eng.isPlaying = false) :
    (driveTicks (startMusic s t i0).1 is).eng.timerIDs = handleSeq s.nextH (is.length + 1) ∧
    (driveTicks (startMusic s t i0).1 is).eng.timerIDs.length = is.length + 1 ∧
    (stopMusic (driveTicks (startMusic s t i0).1 is) now).1.eng.timerIDs = [] := by
  obtain ⟨hT, hP⟩ := (reachable_sysInv s hre).2 hidle
  have hguard : ¬s.eng.isPlaying = true := by simp [hidle]
  have hstate : (startMusic s t i0).1 =
      { eng := { muted := s.eng.muted, isPlaying := true, timerIDs := [s.nextH] },
        pending := [s.nextH], nextH := s.nextH + 1 } := by
    rw [startMusic, if_neg hguard, loopTick, if_neg (by simp)]
    simp [hT, hP]
  have hchars := driveTicks_chars is (startMusic s t i0).1
    (by rw [hstate]) (by rw [hstate]; simp)
  have hfirst : (driveTicks (startMusic s t i0).1 is).eng.timerIDs
      = handleSeq s.nextH (is.length + 1) := by
    rw [hchars.1, hstate]
    simp [handleSeq]
  refine ⟨hfirst, ?_, rfl⟩
  rw [hfirst, handleSeq_length]

theorem timerIDs_growth_witness :
    (driveTicks (startMusic initSys 0 ⟨0, 0, 1, 0, 0⟩).1 [⟨300, 1, 1, 0, 0⟩]).eng.timerIDs
      = handleSeq 0 2 ∧
    (driveTicks (startMusic initSys 0 ⟨0, 0, 1, 0, 0⟩).1 [⟨300, 1, 1, 0, 0⟩]).eng.timerIDs.length
      = 2 ∧
    (stopMusic (driveTicks (startMusic initSys 0 ⟨0, 0, 1, 0, 0⟩).1 [⟨300, 1, 1, 0, 0⟩]) 1).1.eng.timerIDs
      = [] :=
  timerIDs_growth initSys 0 1 ⟨0, 0, 1, 0, 0⟩ [⟨300, 1, 1, 0, 0⟩] Reachable.init rfl

/-- C9: a `setTargetAtTime` bus ramp issued toward the higher target 0.25
(from a starting value at or below the target, with a positive time
constant) is monotonically non-decreasing, never exceeds 0.25, and
asymptotically approaches 0.25. -/
theorem setTargetCurve_monotone_to_target (v0 t0 tc t1 t2 : ℝ)
    (hv : v0 ≤ 0.25) (htc : 0 < tc) (h12 : t1 ≤ t2) :
    setTargetCurve v0 0.25 t0 tc t1 ≤ setTargetCurve v0 0.25 t0 tc t2 ∧
    setTargetCurve v0 0.25 t0 tc t2 ≤ 0.25 ∧
    Filter.Tendsto (setTargetCurve v0 0.25 t0 tc) Filter.atTop (nhds 0.25) := by
  have hc : v0 - 0.25 ≤ 0 := by linarith
  refine ⟨?_, ?_, ?_⟩
  · unfold setTargetCurve
    have hexp : Real.exp (-((t2 - t0) / tc)) ≤ Real.exp (-((t1 - t0) / tc)) := by
      apply Real.exp_le_exp.mpr
      have h := (div_le_div_iff_of_pos_right htc).mpr (sub_le_sub_right h12 t0)
      linarith
    have := mul_le_mul_of_nonpos_left hexp hc
    linarith
  · unfold setTargetCurve
    nlinarith [Real.exp_pos (-((t2 - t0) / tc))]
  · have h1 : Filter.Tendsto (fun t : ℝ => (t - t0) / tc) Filter.atTop Filter.atTop := by
      apply Filter.Tendsto.atTop_div_const htc
      exact Filter.tendsto_atTop_add_const_right Filter.atTop (-t0) Filter.tendsto_id
    have h2 : Filter.Tendsto (fun t : ℝ => -((t - t0) / tc)) Filter.atTop Filter.atBot :=
      Filter.tendsto_neg_atBot_iff.mpr h1
    have h3 : Filter.Tendsto (fun t : ℝ => Real.exp (-((t - t0) / tc)))
        Filter.atTop (nhds 0) :=
      Real.tendsto_exp_atBot.comp h2
    have h4 := (h3.const_mul (v0 - 0.25)).const_add (0.25 : ℝ)
    simpa [setTargetCurve] using h4

theorem setTargetCurve_monotone_to_target_witness :
    setTargetCurve 0.25 0.25 0 1 0 ≤ setTargetCurve 0.25 0.25 0 1 1 ∧
    setTargetCurve 0.25 0.25 0 1 1 ≤ 0.25 ∧
    Filter.Tendsto (setTargetCurve 0.25 0.25 0 1) Filter.atTop (nhds 0.25) :=
  setTargetCurve_monotone_to_target 0.25 0 1 0 1 (le_refl (0.25 : ℝ)) one_pos zero_le_one
